import Mathlib

/-!
Shallow embedding of the VenTech / BloodAid Express backends
(src/index.js, src/unnamed/part_000, src/backend/src/*).

Users, products and the mongo collections are modelled as Lean
structures and lists; each HTTP route becomes a pure function from the
database (plus the request data) to the new database and a response.
-/

namespace VenTech

/-- `role` enum of the Mongoose `UserSchema`: `["admin","merchant","customer"]`. -/
inductive Role where
  | admin
  | merchant
  | customer
deriving DecidableEq, Repr

/-- `status` enum of the Mongoose `UserSchema`: `["active","pending","blocked"]`. -/
inductive AccountStatus where
  | active
  | pending
  | blocked
deriving DecidableEq, Repr

/-- `roleRequest.type` enum: `["merchant","customer"]` (called `rtype` here;
`type` is kept free for readability). -/
inductive ReqKind where
  | merchant
  | customer
deriving DecidableEq, Repr

/-- `roleRequest.status` enum: `["pending","approved","rejected"]`. -/
inductive ReqStatus where
  | pending
  | approved
  | rejected
deriving DecidableEq, Repr

/-- The `roleRequest` subdocument of `UserSchema`.  A user document whose
`roleRequest` is missing (or whose `type` is still `null`) is modelled as
`Option.none` at the use site. -/
structure RoleRequest where
  rtype : ReqKind
  status : ReqStatus
  requestedAt : Nat
deriving DecidableEq, Repr

/-- A document of the `users` collection (the fields the routes under
verification read or write).  `id` models Mongo's `_id`. -/
structure User where
  id : Nat
  email : String
  name : String
  role : Role
  status : AccountStatus
  roleRequest : Option RoleRequest
  loginCount : Nat
deriving DecidableEq, Repr

/-- An HTTP response: `ok` for the 2xx JSON replies, `err` for the
`res.status(...).json(...)` early returns. -/
inductive RouteOut where
  | ok (code : Nat) (msg : String)
  | err (code : Nat) (msg : String)
deriving DecidableEq, Repr

/-- `User.findById(id)`. -/
def findById (db : List User) (i : Nat) : Option User :=
  db.find? (fun u => u.id == i)

/-- `User.findOne({ email })`. -/
def findByEmail (db : List User) (e : String) : Option User :=
  db.find? (fun u => u.email == e)

/-- `user.save()`: write the (mutated) document back under its `_id`. -/
def saveById (db : List User) (i : Nat) (u : User) : List User :=
  db.map (fun v => if v.id == i then u else v)

/-!  ## Donor search normalization (src/index.js:104-128)

The route reads `bloodGroup` from the query string and runs

    let lastFixed = bloodGroup.slice(-1);
    const sym = (lastFixed == 'p') ? '+' : '-';
    let FixedBlood = bloodGroup.slice(0, -1) + sym;

Strings are modelled as `List Char`; `slice(-1)` is `drop (length - 1)`
and `slice(0, -1)` is `dropLast`.  -/

/-- The `FixedBlood` computation of `GET /search-donors`. -/
def fixedBlood (bloodGroup : List Char) : List Char :=
  let lastFixed := bloodGroup.drop (bloodGroup.length - 1)
  let sym : Char := if lastFixed = ['p'] then '+' else '-'
  bloodGroup.dropLast ++ [sym]

/-!  ## Guard middlewares (src/unnamed/part_000, src/index.js:668-679) -/

/-- Result of one guard middleware: either the chain is terminated with a
status code and message (`halt`), or `next()` is called (`proceed`). -/
inductive GuardOut where
  | halt (code : Nat) (msg : String)
  | proceed (u : User)
deriving DecidableEq, Repr

/-- `requireMerchant`: `req.user` absent → 401; wrong role → 403; not
active → 403; otherwise `next()`. -/
def requireMerchant (user : Option User) : GuardOut :=
  match user with
  | none => .halt 401 "Unauthorized"
  | some u =>
    if u.role ≠ Role.merchant then .halt 403 "Only merchants allowed"
    else if u.status ≠ AccountStatus.active then .halt 403 "Merchant account not approved yet"
    else .proceed u

/-- `requireAdmin`: `req.user` absent → 401; non-admin → 403; otherwise
`next()`. -/
def requireAdmin (user : Option User) : GuardOut :=
  match user with
  | none => .halt 401 "Unauthorized"
  | some u =>
    if u.role ≠ Role.admin then .halt 403 "Admin only"
    else .proceed u

/-!  ## Merchant request / approve / reject routes
(src/index.js:726-744, 746-762, 764-781) -/

/-- `user.roleRequest?.type === "merchant" && user.roleRequest?.status ===
"pending"` — the duplicate-request check of `POST /api/v1/auth/request-merchant`. -/
def pendingMerchantReq (o : Option RoleRequest) : Bool :=
  match o with
  | some r => r.rtype == ReqKind.merchant && r.status == ReqStatus.pending
  | none => false

/-- `POST /api/v1/auth/request-merchant` (src/index.js:726-744): find the
caller's document; 404 if absent; 400 "Merchant request already pending"
when a pending merchant request exists; otherwise overwrite `roleRequest`
with `{type: merchant, status: pending, requestedAt: now}`, set the account
`status` to `active` and save. -/
def requestMerchant (db : List User) (i : Nat) (now : Nat) : List User × RouteOut :=
  match findById db i with
  | none => (db, .err 404 "User not found")
  | some u =>
    if pendingMerchantReq u.roleRequest then
      (db, .err 400 "Merchant request already pending")
    else
      let u' : User :=
        { u with
          roleRequest := some ⟨ReqKind.merchant, ReqStatus.pending, now⟩
          status := AccountStatus.active }
      (saveById db i u', .ok 200 "Request sent successfully")

/-- `PATCH /api/v1/admin/approve-merchant/:id` (src/index.js:764-781):
404 when the id matches no user; 400 "No merchant request found" when
`!user.roleRequest || user.roleRequest.type !== "merchant"`; otherwise set
`roleRequest.status = "approved"`, `role = "merchant"`,
`status = status === "pending" ? "active" : status`, and save. -/
def approveMerchant (db : List User) (i : Nat) : List User × RouteOut :=
  match findById db i with
  | none => (db, .err 404 "User not found")
  | some u =>
    match u.roleRequest with
    | none => (db, .err 400 "No merchant request found")
    | some r =>
      if r.rtype ≠ ReqKind.merchant then (db, .err 400 "No merchant request found")
      else
        let u' : User :=
          { u with
            roleRequest := some { r with status := ReqStatus.approved }
            role := Role.merchant
            status := if u.status = AccountStatus.pending then AccountStatus.active else u.status }
        (saveById db i u', .ok 200 "Merchant approved")

/-- `PATCH /api/v1/admin/reject-merchant/:id` (src/index.js:746-762):
404 when the id matches no user; 400 "No merchant request found" when
`!user.roleRequest || user.roleRequest.type !== "merchant"`; otherwise set
`roleRequest.status = "rejected"`, `role = "customer"`, and save. -/
def rejectMerchant (db : List User) (i : Nat) : List User × RouteOut :=
  match findById db i with
  | none => (db, .err 404 "User not found")
  | some u =>
    match u.roleRequest with
    | none => (db, .err 400 "No merchant request found")
    | some r =>
      if r.rtype ≠ ReqKind.merchant then (db, .err 400 "No merchant request found")
      else
        let u' : User :=
          { u with
            roleRequest := some { r with status := ReqStatus.rejected }
            role := Role.customer }
        (saveById db i u', .ok 200 "Merchant request rejected")

/-!  ## `POST /api/v1/auth/add-user` (src/index.js:693-721)

An unauthenticated `findOneAndUpdate({email}, {$set: {...}}, {upsert:
true})`.  Only the fields present in the `User` model above are kept; the
JS defaulting `x || d` (which also replaces falsy values such as `0`) is
modelled explicitly. -/

/-- The request body of `POST /api/v1/auth/add-user` (modelled fields). -/
structure AddUserBody where
  name : Option String
  email : String
  role : Option Role
  status : Option AccountStatus
  roleRequest : Option RoleRequest
  loginCount : Option Nat
deriving DecidableEq, Repr

/-- JS `o || d` on a number field: `undefined` and the falsy `0` both fall
back to the default. -/
def jsOrNat (o : Option Nat) (d : Nat) : Nat :=
  match o with
  | some 0 => d
  | some n => n
  | none => d

/-- The `$set` document of the add-user upsert, applied to a user document:
`role: role || "customer"`, `status: status || "active"`,
`loginCount: loginCount || 1`, `roleRequest: roleRequest || null`.
A `$set` with an `undefined` value is dropped by Mongoose, so an absent
`name` leaves the stored name unchanged. -/
def applyAddUserSet (b : AddUserBody) (u : User) : User :=
  { u with
    name := b.name.getD u.name
    role := b.role.getD Role.customer
    status := b.status.getD AccountStatus.active
    loginCount := jsOrNat b.loginCount 1
    roleRequest := b.roleRequest }

/-- Replace the first element satisfying `p` by its image under `f`
(Mongo's single-document update). -/
def updateFirst (p : α → Bool) (f : α → α) : List α → List α
  | [] => []
  | x :: xs => if p x then f x :: xs else x :: updateFirst p f xs

/-- `POST /api/v1/auth/add-user`: upsert keyed on `email`; when no document
matches, a fresh document (id `fresh`, schema defaults) is created and the
`$set` document applied to it. -/
def addUser (db : List User) (b : AddUserBody) (fresh : Nat) : List User :=
  match findByEmail db b.email with
  | some _ => updateFirst (fun u => u.email == b.email) (applyAddUserSet b) db
  | none =>
    let base : User :=
      { id := fresh, email := b.email, name := "", role := Role.customer,
        status := AccountStatus.active, roleRequest := none, loginCount := 0 }
    db ++ [applyAddUserSet b base]

/-!  ## `PATCH /update-status` (src/index.js:241-248)

`userCollection.updateOne({ email }, { $set: { status } })`: at most one
document (the first match) is updated; Mongo reports `modifiedCount = 0`
when the `$set` changes nothing. -/

/-- The fields of Mongo's update result the route sends back. -/
structure UpdateResult where
  matchedCount : Nat
  modifiedCount : Nat
deriving DecidableEq, Repr

/-- `PATCH /update-status {email, status}`. -/
def updateStatus (db : List User) (e : String) (s : AccountStatus) : List User × UpdateResult :=
  match findByEmail db e with
  | none => (db, ⟨0, 0⟩)
  | some u =>
    (updateFirst (fun v => v.email == e) (fun v => { v with status := s }) db,
     ⟨1, if u.status = s then 0 else 1⟩)

/-!  ## Product routes (src/index.js:946-1119) -/

/-- `stockStatus` enum of `ProductSchema`: `["in-stock","out-of-stock"]`. -/
inductive StockStatus where
  | inStock
  | outOfStock
deriving DecidableEq, Repr

/-- A document of the `products` collection. -/
structure Product where
  title : String
  description : String
  category : String
  images : List String
  retailPrice : Int
  merchantPrice : Int
  quantity : Int
  stockStatus : StockStatus
  merchantId : Nat
deriving DecidableEq, Repr

/-- The repeated expression `quantity > 0 ? "in-stock" : "out-of-stock"`. -/
def deriveStock (q : Int) : StockStatus :=
  if q > 0 then StockStatus.inStock else StockStatus.outOfStock

/-- `POST /api/v1/products` (src/index.js:946-959): the stored document,
with `stockStatus` derived from the submitted quantity. -/
def createProduct (title description category : String) (images : List String)
    (retailPrice merchantPrice quantity : Int) (merchantId : Nat) : Product :=
  { title := title, description := description, category := category,
    images := images, retailPrice := retailPrice, merchantPrice := merchantPrice,
    quantity := quantity, stockStatus := deriveStock quantity, merchantId := merchantId }

/-- The write of `PATCH /api/v1/products/:id/update-stock`
(src/index.js:994-1015): set `quantity` and re-derive `stockStatus`. -/
def updateStock (p : Product) (quantity : Int) : Product :=
  { p with quantity := quantity, stockStatus := deriveStock quantity }

/-- The write of `PATCH /api/v1/products/:id/stock-out`
(src/index.js:1020-1051): `quantity = 0`, `stockStatus = "out-of-stock"`. -/
def stockOut (p : Product) : Product :=
  { p with quantity := 0, stockStatus := StockStatus.outOfStock }

/-- The request body of `PATCH /api/v1/products/:id/edit`; `none` models an
absent (`undefined`) field. -/
structure EditBody where
  title : Option String
  images : Option (List String)
  category : Option String
  retailPrice : Option Int
  merchantPrice : Option Int
  quantity : Option Int
deriving DecidableEq, Repr

/-- The write of `PATCH /api/v1/products/:id/edit` (src/index.js:1081-1119).
`if (title)` applies only truthy strings (non-empty); `if (retailPrice)`
only nonzero numbers; arrays are always truthy; quantity is guarded by
`quantity !== undefined` and re-derives `stockStatus`. -/
def editProduct (p : Product) (b : EditBody) : Product :=
  let p := match b.title with
    | some t => if t = "" then p else { p with title := t }
    | none => p
  let p := match b.images with
    | some l => { p with images := l }
    | none => p
  let p := match b.category with
    | some c => if c = "" then p else { p with category := c }
    | none => p
  let p := match b.retailPrice with
    | some r => if r = 0 then p else { p with retailPrice := r }
    | none => p
  let p := match b.merchantPrice with
    | some m => if m = 0 then p else { p with merchantPrice := m }
    | none => p
  match b.quantity with
  | some q => { p with quantity := q, stockStatus := deriveStock q }
  | none => p

/-!  ## Identity resolver `requireAuth` (src/unnamed/part_000:5-37,
src/index.js:635-666)

Token verification is performed by the external identity provider; the
resolver below models the success path after `verifyIdToken`, i.e. the
database effect: look up the user by the verified email; create it with
role customer, status active and `loginCount = 1` when absent; otherwise
increment `loginCount` with `updateOne({_id}, {$inc: {loginCount: 1}})`. -/

/-- A Mongo `_id` not used by any document of `db`. -/
def freshId (db : List User) : Nat :=
  db.foldr (fun u m => max u.id m) 0 + 1

/-- `User.updateOne({ _id: i }, { $inc: { loginCount: 1 } })`. -/
def incLoginById (db : List User) (i : Nat) : List User :=
  db.map (fun v => if v.id == i then { v with loginCount := v.loginCount + 1 } else v)

/-- The document created by `User.create` on first sight of `email`
(`nameGuess` is `decoded.name || email.split("@")[0]`). -/
def createdUser (db : List User) (e n : String) : User :=
  { id := freshId db, email := e, name := n, role := Role.customer,
    status := AccountStatus.active, roleRequest := none, loginCount := 1 }

/-- `requireAuth` after a successful token verification: returns the new
database and the user record attached to `req.user`. -/
def requireAuth (db : List User) (email nameGuess : String) : List User × User :=
  match findByEmail db email with
  | some u => (incLoginById db u.id, u)
  | none => (db ++ [createdUser db email nameGuess], createdUser db email nameGuess)

/-- The emails stored in the collection, in document order. -/
def emailsOf (db : List User) : List String :=
  db.map (fun u => u.email)

/-!  ## Request validator (src/backend/src/middleware/validate.js,
src/backend/src/validators/shopRequest.js)

`validate(schema)` runs `schema.safeParse(req.body)`; on failure it
answers 400 with one `{path, message}` entry per issue, on success it
replaces `req.body` with the parsed data and calls `next()`.  The Zod
schema `shopRequestSchema` requires `shopDetails` with `shopName` (min 2),
`shopNumber` (min 1), `shopAddress` (min 3) and an optional nullable
`tradeLicense`. -/

/-- One Zod issue, flattened to `{path: i.path.join("."), message}`. -/
structure Violation where
  path : String
  message : String
deriving DecidableEq, Repr

/-- The `shopDetails` part of the request body; `none` is an absent field,
`some none` (for `tradeLicense`) is an explicit `null`. -/
structure ShopDetailsBody where
  shopName : Option String
  shopNumber : Option String
  shopAddress : Option String
  tradeLicense : Option (Option String)
deriving DecidableEq, Repr

/-- The request body checked by `shopRequestSchema`. -/
structure ShopRequestBody where
  shopDetails : Option ShopDetailsBody
deriving DecidableEq, Repr

/-- `z.string().min(n)` on a required field: absent → "Required", shorter
than `n` → a min-length issue, otherwise no issue. -/
def strMinCheck (path : String) (minLen : Nat) (v : Option String) : List Violation :=
  match v with
  | none => [⟨path, "Required"⟩]
  | some s =>
    if s.length < minLen then
      [⟨path, "String must contain at least " ++ toString minLen ++ " character(s)"⟩]
    else []

/-- The issues `shopRequestSchema.safeParse` reports for a body. -/
def shopRequestIssues (b : ShopRequestBody) : List Violation :=
  match b.shopDetails with
  | none => [⟨"shopDetails", "Required"⟩]
  | some d =>
    strMinCheck "shopDetails.shopName" 2 d.shopName ++
    strMinCheck "shopDetails.shopNumber" 1 d.shopNumber ++
    strMinCheck "shopDetails.shopAddress" 3 d.shopAddress

/-- The per-request context a middleware sees: the parsed body and the log
of persistence operations performed so far. -/
structure ReqCtx where
  body : ShopRequestBody
  dbLog : List String
deriving DecidableEq, Repr

/-- What a middleware does with the chain: `nextStep` passes the (possibly
rewritten) context on, `respond` ends the request with a status code, an
error string and the issue details. -/
inductive MwStep where
  | nextStep (c : ReqCtx)
  | respond (c : ReqCtx) (code : Nat) (error : String) (details : List Violation)
deriving DecidableEq, Repr

/-- `validate(shopRequestSchema)` as a middleware. -/
def validateShopRequest (c : ReqCtx) : MwStep :=
  match shopRequestIssues c.body with
  | [] => .nextStep { c with body := c.body }
  | issues => .respond c 400 "Validation failed" issues

/-- The context carried by a middleware outcome. -/
def ctxOf : MwStep → ReqCtx
  | .nextStep c => c
  | .respond c _ _ _ => c

/-- The externally visible outcome of a middleware run: the validated body
or the error response. -/
def outcomeOf : MwStep → Except (Nat × String × List Violation) ShopRequestBody
  | .nextStep c => .ok c.body
  | .respond _ code e d => .error (code, e, d)

/-!  ## Concrete fixtures for witnesses and counterexamples -/

/-- A pending merchant `roleRequest`. -/
def mReq : RoleRequest := ⟨ReqKind.merchant, ReqStatus.pending, 0⟩

/-- Concrete user carrying `mReq` under id 1. -/
def mUser : User :=
  { id := 1, email := "m@x.com", name := "M", role := Role.customer,
    status := AccountStatus.pending, roleRequest := some mReq, loginCount := 3 }

/-- Concrete user whose merchant request was already resolved (status
approved, not pending). -/
def resolvedReqUser : User :=
  { id := 4, email := "r@x.com", name := "R", role := Role.customer,
    status := AccountStatus.active,
    roleRequest := some ⟨ReqKind.merchant, ReqStatus.approved, 0⟩, loginCount := 1 }

/-- Concrete user with no `roleRequest` at all. -/
def noReqUser : User :=
  { id := 5, email := "n@x.com", name := "N", role := Role.customer,
    status := AccountStatus.active, roleRequest := none, loginCount := 1 }

/-- Concrete user whose `roleRequest` is pending but of type customer, not
merchant. -/
def pendingCustomerReqUser : User :=
  { id := 2, email := "c@x.com", name := "C", role := Role.customer,
    status := AccountStatus.active,
    roleRequest := some ⟨ReqKind.customer, ReqStatus.pending, 0⟩, loginCount := 1 }

/-- Request body naming an admin role, sent by an anonymous caller. -/
def evilBody : AddUserBody :=
  { name := some "Eve", email := "eve@x.com", role := some Role.admin,
    status := none, roleRequest := none, loginCount := none }

/-- Concrete user that already had role admin before the add-user call. -/
def adminUser : User :=
  { id := 9, email := "root@x.com", name := "Root", role := Role.admin,
    status := AccountStatus.active, roleRequest := none, loginCount := 1 }

/-- Add-user body whose role field is merchant, not admin. -/
def merchantBody : AddUserBody :=
  { name := none, email := "n@x.com", role := some Role.merchant,
    status := none, roleRequest := none, loginCount := none }

/-- A concrete product satisfying the stock invariant. -/
def sampleProduct : Product :=
  { title := "Mug", description := "Ceramic", category := "Kitchen",
    images := ["a.png"], retailPrice := 12, merchantPrice := 9,
    quantity := 5, stockStatus := StockStatus.inStock, merchantId := 1 }

/-- A concrete edit body setting the quantity to zero. -/
def sampleEdit : EditBody :=
  { title := some "Cup", images := none, category := none,
    retailPrice := some 0, merchantPrice := none, quantity := some 0 }

/-- A valid shop-request body. -/
def okShopBody : ShopRequestBody :=
  { shopDetails := some
      { shopName := some "VenTech Store", shopNumber := some "12",
        shopAddress := some "Dhaka", tradeLicense := some none } }

/-!  ## Theorems -/

/-- `updateFirst` commutes with `find?` when `f` does not change the
searched predicate. -/
theorem find?_updateFirst {α : Type} {p : α → Bool} {f : α → α}
    (hpf : ∀ a, p (f a) = p a) :
    ∀ l : List α, (updateFirst p f l).find? p = (l.find? p).map f := by
  intro l
  induction l with
  | nil => rfl
  | cons x xs ih =>
    cases hx : p x with
    | true => simp [updateFirst, List.find?, hx, hpf x]
    | false => simp [updateFirst, List.find?, hx, ih]

/-- Applying `updateFirst` twice with a predicate-preserving idempotent `f`
is the same as applying it once. -/
theorem updateFirst_updateFirst {α : Type} {p : α → Bool} {f : α → α}
    (hpf : ∀ a, p (f a) = p a) (hff : ∀ a, f (f a) = f a) :
    ∀ l : List α, updateFirst p f (updateFirst p f l) = updateFirst p f l := by
  intro l
  induction l with
  | nil => rfl
  | cons x xs ih =>
    cases hx : p x with
    | true => simp [updateFirst, hx, hpf x, hff x]
    | false => simp [updateFirst, hx, ih]

/-- **C5.** For every non-empty blood-group query string the donor-search
normalization strips the last character, maps it to `'+'` when it equals
the sentinel `'p'` and to `'-'` otherwise, and reattaches it; in
particular `"Ap"` is queried as `"A+"` and `"Om"` as `"O-"`. -/
theorem searchDonors_bloodGroup_normalization (cs : List Char) (c : Char) :
    fixedBlood (cs ++ [c]) = cs ++ [if c = 'p' then '+' else '-'] ∧
    fixedBlood "Ap".toList = "A+".toList ∧
    fixedBlood "Om".toList = "O-".toList := by
  refine ⟨?_, by decide, by decide⟩
  simp [fixedBlood]

/-- **C7.** When no user has been attached to the request context (the
`authenticated` guard did not run or did not succeed), both `hasRole`
guards (`requireMerchant`, `requireAdmin`) terminate the chain with
HTTP 401 "Unauthorized"; being total Lean functions they never throw. -/
theorem guards_fail_closed_without_user :
    requireMerchant none = GuardOut.halt 401 "Unauthorized" ∧
    requireAdmin none = GuardOut.halt 401 "Unauthorized" :=
  ⟨rfl, rfl⟩

/-- **C1.** For every user whose `roleRequest` exists with type merchant,
approve sets `roleRequest.status` to approved, `role` to merchant, and
`status` to active exactly when it was pending; reject sets
`roleRequest.status` to rejected and `role` to customer.  The saved
document differs from the found one in exactly those fields. -/
theorem approve_reject_transitions (db : List User) (i : Nat) (u : User) (r : RoleRequest)
    (hf : findById db i = some u) (hr : u.roleRequest = some r)
    (ht : r.rtype = ReqKind.merchant) :
    approveMerchant db i =
      (saveById db i
        { u with
          roleRequest := some { r with status := ReqStatus.approved }
          role := Role.merchant
          status := if u.status = AccountStatus.pending then AccountStatus.active else u.status },
       RouteOut.ok 200 "Merchant approved") ∧
    rejectMerchant db i =
      (saveById db i
        { u with
          roleRequest := some { r with status := ReqStatus.rejected }
          role := Role.customer },
       RouteOut.ok 200 "Merchant request rejected") := by
  constructor <;> simp [approveMerchant, rejectMerchant, hf, hr, ht]

/-- Witness for C1 at a concrete database. -/
theorem approve_reject_transitions_witness :
    approveMerchant [mUser] 1 =
      (saveById [mUser] 1
        { mUser with
          roleRequest := some { mReq with status := ReqStatus.approved }
          role := Role.merchant
          status := if mUser.status = AccountStatus.pending then AccountStatus.active else mUser.status },
       RouteOut.ok 200 "Merchant approved") ∧
    rejectMerchant [mUser] 1 =
      (saveById [mUser] 1
        { mUser with
          roleRequest := some { mReq with status := ReqStatus.rejected }
          role := Role.customer },
       RouteOut.ok 200 "Merchant request rejected") :=
  approve_reject_transitions [mUser] 1 mUser mReq rfl rfl rfl

/-- **C2, counterexample.** The claim says approve fails with an error on a
user whose `roleRequest.status` is not pending; on `resolvedReqUser`
(status already approved) the route succeeds with 200 instead. -/
theorem approve_without_pending_succeeds :
    (approveMerchant [resolvedReqUser] 4).2 = RouteOut.ok 200 "Merchant approved" := by
  decide

/-- **C2, amended.** Approve and reject succeed exactly when the user's
`roleRequest` exists with type merchant — `roleRequest.status == pending`
is not required; when the `roleRequest` is absent or its type is not
merchant they fail with a 400 error and leave the database (hence `role`,
`status`, `roleRequest`) unchanged. -/
theorem approve_reject_precondition (db : List User) (i : Nat) (u : User)
    (hf : findById db i = some u) :
    ((∀ r, u.roleRequest = some r → r.rtype ≠ ReqKind.merchant) →
      approveMerchant db i = (db, RouteOut.err 400 "No merchant request found") ∧
      rejectMerchant db i = (db, RouteOut.err 400 "No merchant request found")) ∧
    (∀ r, u.roleRequest = some r → r.rtype = ReqKind.merchant →
      (approveMerchant db i).2 = RouteOut.ok 200 "Merchant approved" ∧
      (rejectMerchant db i).2 = RouteOut.ok 200 "Merchant request rejected") := by
  constructor
  · intro hno
    cases hr : u.roleRequest with
    | none => constructor <;> simp [approveMerchant, rejectMerchant, hf, hr]
    | some r =>
      have hne := hno r hr
      constructor <;> simp [approveMerchant, rejectMerchant, hf, hr, hne]
  · intro r hr ht
    constructor <;> simp [approveMerchant, rejectMerchant, hf, hr, ht]

/-- Witness for the amended C2 at a concrete database. -/
theorem approve_reject_precondition_witness :
    ((∀ r, noReqUser.roleRequest = some r → r.rtype ≠ ReqKind.merchant) →
      approveMerchant [noReqUser] 5 = ([noReqUser], RouteOut.err 400 "No merchant request found") ∧
      rejectMerchant [noReqUser] 5 = ([noReqUser], RouteOut.err 400 "No merchant request found")) ∧
    (∀ r, noReqUser.roleRequest = some r → r.rtype = ReqKind.merchant →
      (approveMerchant [noReqUser] 5).2 = RouteOut.ok 200 "Merchant approved" ∧
      (rejectMerchant [noReqUser] 5).2 = RouteOut.ok 200 "Merchant request rejected") :=
  approve_reject_precondition [noReqUser] 5 noReqUser rfl

/-- **C3, counterexample.** The claim says request-merchant fails with 400
for every user whose `roleRequest.status` equals pending; on
`pendingCustomerReqUser` (pending request of type customer) the route
succeeds with 200 and overwrites the request instead. -/
theorem requestMerchant_pending_customer_succeeds :
    (requestMerchant [pendingCustomerReqUser] 2 5).2 =
      RouteOut.ok 200 "Request sent successfully" := by
  decide

/-- **C3, amended.** For every user whose `roleRequest` has type merchant
and status pending, request-merchant fails with 400 ("Merchant request
already pending") regardless of the user's `role`, and leaves the database
(hence `roleRequest`, `role`, `status`) unchanged; a second request while a
merchant request is pending is never queued. -/
theorem requestMerchant_conflict_when_pending (db : List User) (i now : Nat)
    (u : User) (r : RoleRequest) (hf : findById db i = some u)
    (hr : u.roleRequest = some r) (ht : r.rtype = ReqKind.merchant)
    (hp : r.status = ReqStatus.pending) :
    requestMerchant db i now = (db, RouteOut.err 400 "Merchant request already pending") := by
  simp [requestMerchant, hf, pendingMerchantReq, hr, ht, hp]

/-- Witness for the amended C3 at a concrete database. -/
theorem requestMerchant_conflict_when_pending_witness :
    requestMerchant [mUser] 1 9 = ([mUser], RouteOut.err 400 "Merchant request already pending") :=
  requestMerchant_conflict_when_pending [mUser] 1 9 mUser mReq rfl rfl rfl rfl

/-- **C4, counterexample.** The claim says no caller of the unauthenticated
add-user upsert can set a user's role to admin; starting from an empty
database (no admin anywhere), `evilBody` stores a user whose role is admin. -/
theorem addUser_stores_admin_role :
    ((findByEmail (addUser [] evilBody 1) "eve@x.com").map (fun u => u.role)) =
      some Role.admin := by
  decide

/-- `applyAddUserSet` stores the body's role (default customer). -/
theorem applyAddUserSet_role (b : AddUserBody) (u : User) :
    (applyAddUserSet b u).role = b.role.getD Role.customer := rfl

/-- Membership in `updateFirst`: every element of the result is either an
original element or the image under `f` of an original element. -/
theorem mem_updateFirst {p : α → Bool} {f : α → α} {l : List α} {u : α}
    (hu : u ∈ updateFirst p f l) : u ∈ l ∨ ∃ x ∈ l, u = f x := by
  induction l with
  | nil => simp [updateFirst] at hu
  | cons x xs ih =>
    by_cases hx : p x
    · simp only [updateFirst, if_pos hx, List.mem_cons] at hu
      rcases hu with h | h
      · exact Or.inr ⟨x, List.mem_cons_self x xs, h⟩
      · exact Or.inl (List.mem_cons_of_mem x h)
    · simp only [updateFirst, if_neg hx, List.mem_cons] at hu
      rcases hu with h | h
      · exact Or.inl (h ▸ List.mem_cons_self x xs)
      · rcases ih h with h' | ⟨y, hy, hfy⟩
        · exact Or.inl (List.mem_cons_of_mem x h')
        · exact Or.inr ⟨y, List.mem_cons_of_mem x hy, hfy⟩

/-- **C4, amended.** The unauthenticated add-user upsert stores the
request-supplied `role` verbatim (customer when absent), so a body naming
`admin` does create an admin; only when the body's role is not admin does
the invariant hold: every stored record with role admin was already in the
database. -/
theorem addUser_no_admin_escalation (db : List User) (b : AddUserBody) (fresh : Nat)
    (hb : b.role ≠ some Role.admin) :
    ∀ u, u ∈ addUser db b fresh → u.role = Role.admin → u ∈ db := by
  intro u hu hrole
  have heff : ∀ v, (applyAddUserSet b v).role ≠ Role.admin := by
    intro v
    rw [applyAddUserSet_role]
    cases hbr : b.role with
    | none => simp
    | some r =>
      simp only [Option.getD_some]
      intro hra
      exact hb (by rw [hbr, hra])
  unfold addUser at hu
  cases hfe : findByEmail db b.email with
  | some w =>
    rw [hfe] at hu
    rcases mem_updateFirst hu with h | ⟨x, _, hfx⟩
    · exact h
    · exact absurd hrole (hfx ▸ heff x)
  | none =>
    rw [hfe] at hu
    rcases List.mem_append.mp hu with h | h
    · exact h
    · have : u = applyAddUserSet b _ := List.mem_singleton.mp h
      exact absurd hrole (this ▸ heff _)

/-- Witness for the amended C4: a pre-existing admin found after the call
was already in the database. -/
theorem addUser_no_admin_escalation_witness :
    adminUser ∈ [adminUser] :=
  addUser_no_admin_escalation [adminUser] merchantBody 7 (by decide)
    adminUser (by decide) (by decide)

/-- **C9.** `PATCH /update-status` is idempotent: applying the same
`{email, status}` twice yields the same end state as applying it once, and
the second call succeeds, reporting a modified count of zero. -/
theorem updateStatus_idempotent (db : List User) (e : String) (s : AccountStatus) :
    (updateStatus (updateStatus db e s).1 e s).1 = (updateStatus db e s).1 ∧
    (updateStatus (updateStatus db e s).1 e s).2.modifiedCount = 0 := by
  cases h : findByEmail db e with
  | none => simp [updateStatus, h]
  | some u =>
    have h1 : findByEmail
        (updateFirst (fun v => v.email == e) (fun v => { v with status := s }) db) e
        = some { u with status := s } := by
      unfold findByEmail at h ⊢
      rw [find?_updateFirst (p := fun v : User => v.email == e)
        (f := fun v => { v with status := s }) (fun a => rfl) db, h]
      rfl
    simp [updateStatus, h, h1,
      updateFirst_updateFirst (p := fun v : User => v.email == e)
        (f := fun v => { v with status := s }) (fun a => rfl) (fun a => rfl) db]

/-- `deriveStock` returns in-stock exactly on positive quantities. -/
theorem deriveStock_inStock (q : Int) :
    deriveStock q = StockStatus.inStock ↔ q > 0 := by
  unfold deriveStock
  by_cases hq : q > 0 <;> simp [hq]

/-- The quantity and stock status after `editProduct`: re-derived when the
body supplies a quantity, untouched otherwise. -/
theorem editProduct_stock_fields (p : Product) (b : EditBody) :
    (editProduct p b).stockStatus =
      (match b.quantity with | some q => deriveStock q | none => p.stockStatus) ∧
    (editProduct p b).quantity =
      (match b.quantity with | some q => q | none => p.quantity) := by
  obtain ⟨bt, bi, bc, br, bm, bq⟩ := b
  cases bt <;> cases bi <;> cases bc <;> cases br <;> cases bm <;> cases bq <;>
    simp only [editProduct] <;> (try split_ifs) <;> simp

/-- **C10.** Every product write preserves `stockStatus = "in-stock" ↔
quantity > 0`: create derives the status from the submitted quantity,
update-stock re-derives it, stock-out zeroes the quantity together with the
status, and edit re-derives it whenever a quantity is supplied. -/
theorem product_stock_invariant (t d cg : String) (imgs : List String)
    (rp mp q qNew : Int) (mid : Nat) (p : Product) (b : EditBody)
    (hp : p.stockStatus = StockStatus.inStock ↔ p.quantity > 0) :
    ((createProduct t d cg imgs rp mp q mid).stockStatus = StockStatus.inStock ↔
      (createProduct t d cg imgs rp mp q mid).quantity > 0) ∧
    ((updateStock p qNew).stockStatus = StockStatus.inStock ↔
      (updateStock p qNew).quantity > 0) ∧
    ((stockOut p).stockStatus = StockStatus.inStock ↔ (stockOut p).quantity > 0) ∧
    ((editProduct p b).stockStatus = StockStatus.inStock ↔
      (editProduct p b).quantity > 0) := by
  refine ⟨deriveStock_inStock q, deriveStock_inStock qNew, by simp [stockOut], ?_⟩
  obtain ⟨h1, h2⟩ := editProduct_stock_fields p b
  rw [h1, h2]
  cases b.quantity with
  | none => exact hp
  | some qb => exact deriveStock_inStock qb

/-- Witness for C10 at concrete inputs. -/
theorem product_stock_invariant_witness :
    ((createProduct "P" "D" "C" [] 3 2 7 1).stockStatus = StockStatus.inStock ↔
      (createProduct "P" "D" "C" [] 3 2 7 1).quantity > 0) ∧
    ((updateStock sampleProduct (-1)).stockStatus = StockStatus.inStock ↔
      (updateStock sampleProduct (-1)).quantity > 0) ∧
    ((stockOut sampleProduct).stockStatus = StockStatus.inStock ↔
      (stockOut sampleProduct).quantity > 0) ∧
    ((editProduct sampleProduct sampleEdit).stockStatus = StockStatus.inStock ↔
      (editProduct sampleProduct sampleEdit).quantity > 0) :=
  product_stock_invariant "P" "D" "C" [] 3 2 7 (-1) 1 sampleProduct sampleEdit (by decide)

/-- `find?` over a map by an email-preserving function. -/
theorem find?_map_emailPreserving {f : User → User} (hf : ∀ v, (f v).email = v.email)
    (db : List User) (e : String) :
    (db.map f).find? (fun u => u.email == e) =
      ((db.find? (fun u => u.email == e)).map f) := by
  induction db with
  | nil => rfl
  | cons x xs ih =>
    cases hx : (x.email == e) with
    | true =>
      have hfx : ((f x).email == e) = true := by rw [hf x]; exact hx
      simp [List.find?, hx, hfx]
    | false =>
      have hfx : ((f x).email == e) = false := by rw [hf x]; exact hx
      simp [List.find?, hx, hfx, ih]

/-- `find?` skips a prefix in which it finds nothing. -/
theorem find?_append_none {α : Type} {p : α → Bool} {l₁ l₂ : List α}
    (h : l₁.find? p = none) : (l₁ ++ l₂).find? p = l₂.find? p := by
  induction l₁ with
  | nil => rfl
  | cons x xs ih =>
    cases hx : p x with
    | true => simp [List.find?, hx] at h
    | false =>
      simp only [List.find?, hx, List.cons_append] at h ⊢
      exact ih h

/-- Mapping an email-preserving function changes no email. -/
theorem emailsOf_map {f : User → User} (hf : ∀ v, (f v).email = v.email) :
    ∀ db : List User, emailsOf (db.map f) = emailsOf db := by
  intro db
  induction db with
  | nil => rfl
  | cons x xs ih =>
    simp only [List.map_cons, emailsOf] at ih ⊢
    rw [hf x, ih]

/-- Incrementing a login counter changes no email. -/
theorem emailsOf_incLoginById (db : List User) (i : Nat) :
    emailsOf (incLoginById db i) = emailsOf db :=
  emailsOf_map (fun v => by by_cases h : (v.id == i) = true <;> simp [h]) db

/-- Looking up by email after an increment keyed on the found `_id`. -/
theorem findByEmail_incLoginById (db : List User) (i : Nat) (e : String) :
    findByEmail (incLoginById db i) e =
      (findByEmail db e).map
        (fun v => if v.id == i then { v with loginCount := v.loginCount + 1 } else v) := by
  unfold findByEmail incLoginById
  exact find?_map_emailPreserving
    (fun v => by by_cases h : (v.id == i) = true <;> simp [h]) db e

/-- The resolver on a present user: the database afterwards, and what a
lookup by the same email now returns. -/
theorem requireAuth_found (db : List User) (e n : String) (u : User)
    (h : findByEmail db e = some u) :
    (requireAuth db e n).1 = incLoginById db u.id ∧
    findByEmail (requireAuth db e n).1 e = some { u with loginCount := u.loginCount + 1 } := by
  refine ⟨by simp [requireAuth, h], ?_⟩
  simp [requireAuth, h, findByEmail_incLoginById]

/-- The resolver on an absent user: the database afterwards, and what a
lookup by the same email now returns. -/
theorem requireAuth_notFound (db : List User) (e n : String)
    (h : findByEmail db e = none) :
    (requireAuth db e n).1 = db ++ [createdUser db e n] ∧
    findByEmail (requireAuth db e n).1 e = some (createdUser db e n) := by
  refine ⟨by simp [requireAuth, h], ?_⟩
  simp only [requireAuth, h]
  unfold findByEmail at h ⊢
  rw [find?_append_none h]
  simp [List.find?, createdUser]

/-- **C6.** For every credential verified successfully twice in a row, the
second invocation's stored `loginCount` equals the first's plus one; no
duplicate user record is created (the stored emails stay duplicate-free);
and on first sight the user is created with role customer, status active
and `loginCount = 1`. -/
theorem requireAuth_twice (db : List User) (e n1 n2 : String)
    (hw : (emailsOf db).Nodup) :
    ∃ u1 u2,
      findByEmail (requireAuth db e n1).1 e = some u1 ∧
      findByEmail (requireAuth (requireAuth db e n1).1 e n2).1 e = some u2 ∧
      u2.loginCount = u1.loginCount + 1 ∧
      (emailsOf (requireAuth (requireAuth db e n1).1 e n2).1).Nodup ∧
      (findByEmail db e = none →
        u1.role = Role.customer ∧ u1.status = AccountStatus.active ∧ u1.loginCount = 1) := by
  cases h : findByEmail db e with
  | some u =>
    obtain ⟨hdb1, hfind1⟩ := requireAuth_found db e n1 u h
    obtain ⟨hdb2, hfind2⟩ := requireAuth_found _ e n2 _ hfind1
    refine ⟨_, _, hfind1, hfind2, rfl, ?_, ?_⟩
    · rw [hdb2, emailsOf_incLoginById, hdb1, emailsOf_incLoginById]
      exact hw
    · intro hc
      exact Option.noConfusion hc
  | none =>
    obtain ⟨hdb1, hfind1⟩ := requireAuth_notFound db e n1 h
    obtain ⟨hdb2, hfind2⟩ := requireAuth_found _ e n2 _ hfind1
    refine ⟨_, _, hfind1, hfind2, rfl, ?_, fun _ => ⟨rfl, rfl, rfl⟩⟩
    rw [hdb2, emailsOf_incLoginById, hdb1]
    have heq : emailsOf (db ++ [createdUser db e n1]) = emailsOf db ++ [e] := by
      simp [emailsOf, createdUser]
    rw [heq]
    have hnot : e ∉ emailsOf db := by
      intro hmem
      obtain ⟨u, hu, hue⟩ := List.mem_map.mp hmem
      have hnone := List.find?_eq_none.mp h u hu
      exact hnone (by simp [hue])
    exact List.Nodup.append hw (List.nodup_singleton e)
      (by simpa [List.disjoint_singleton] using hnot)

/-- Witness for C6 starting from the empty collection. -/
theorem requireAuth_twice_witness :
    ∃ u1 u2,
      findByEmail (requireAuth [] "a@x.com" "A").1 "a@x.com" = some u1 ∧
      findByEmail (requireAuth (requireAuth [] "a@x.com" "A").1 "a@x.com" "A").1 "a@x.com" = some u2 ∧
      u2.loginCount = u1.loginCount + 1 ∧
      (emailsOf (requireAuth (requireAuth [] "a@x.com" "A").1 "a@x.com" "A").1).Nodup ∧
      (findByEmail [] "a@x.com" = none →
        u1.role = Role.customer ∧ u1.status = AccountStatus.active ∧ u1.loginCount = 1) :=
  requireAuth_twice [] "a@x.com" "A" "A" (by simp [emailsOf])

/-- **C8.** Request validation is pure and deterministic: two runs of the
validator on contexts carrying the same body produce the same outcome (the
same validated body on success, the same `{path, message}` list on
failure), and the run performs no persistence operation (the context's
operation log is returned unchanged). -/
theorem validateShopRequest_deterministic (c c' : ReqCtx) (h : c.body = c'.body) :
    outcomeOf (validateShopRequest c) = outcomeOf (validateShopRequest c') ∧
    (ctxOf (validateShopRequest c)).dbLog = c.dbLog := by
  unfold validateShopRequest
  rw [h]
  cases hi : shopRequestIssues c'.body with
  | nil => simp [outcomeOf, ctxOf, h]
  | cons v vs => simp [outcomeOf, ctxOf]

/-- Witness for C8: two contexts with the same body but different
persistence logs. -/
theorem validateShopRequest_deterministic_witness :
    outcomeOf (validateShopRequest ⟨okShopBody, []⟩) =
      outcomeOf (validateShopRequest ⟨okShopBody, ["insertOne"]⟩) ∧
    (ctxOf (validateShopRequest ⟨okShopBody, []⟩)).dbLog = ([] : List String) :=
  validateShopRequest_deterministic ⟨okShopBody, []⟩ ⟨okShopBody, ["insertOne"]⟩ rfl

end VenTech
